import Mathlib

/-!
Verification development for the SYDE 552 W23 tutorial repository,
notebook `5_recurrent_network_tutorial.ipynb` (van der Pol oscillator
simulation and LSTM training).  The numeric code of the notebook is
shallowly embedded over the rationals: numpy arrays become (nested)
lists of rationals, Python floats become rationals, and the library
solver `solve_ivp` is an abstract input (its output is a parameter of
the functions that consume it, exactly as in the notebook).
-/

namespace Syde552

/-- The state derivative of the van der Pol oscillator, embedding
`van_der_pol_dynamics(t, x)` from the notebook: `mu = 0.1`,
`dx1 = x[1]`, `dx2 = mu * (1 - x[0] ** 2) * x[1] - x[0]`,
returning `[dx1, dx2]`.  The state vector is the pair `(x[0], x[1])`. -/
def van_der_pol_dynamics (_t : ℚ) (x : ℚ × ℚ) : ℚ × ℚ :=
  let mu : ℚ := 1/10
  let dx1 : ℚ := x.2
  let dx2 : ℚ := mu * (1 - x.1 ^ 2) * x.2 - x.1
  (dx1, dx2)

/-- The vectorized derivative computation inside `plot_flow_field`,
per grid point: `mu = 0.1`, `dx1 = X2`, `dx2 = mu * (1-X1**2) * X2 - X1`. -/
def plot_flow_field_derivs (X1 X2 : ℚ) : ℚ × ℚ :=
  let mu : ℚ := 1/10
  let dx1 : ℚ := X2
  let dx2 : ℚ := mu * (1 - X1 ^ 2) * X2 - X1
  (dx1, dx2)

/-- Model of `np.linspace(a, b, num)`: `num` evenly spaced points with
both endpoints included (used by `plot_flow_field` on `(-5, 5, 20)` and
by `get_random_trajectory` on `(0, T, int(T/dt)+1)`). -/
def np_linspace (a b : ℚ) (num : ℕ) : List ℚ :=
  (List.range num).map (fun (i : ℕ) => a + (b - a) * i / (num - 1 : ℕ))

/-- Output of the library solver `solve_ivp`, as consumed by the
notebook: the time points `solution.t` and the two state rows
`solution.y[0,:]`, `solution.y[1,:]`.  The solver itself is a library
call, so its output is an abstract input to our embedding. -/
structure OdeSolution where
  t : List ℚ
  y0 : List ℚ
  y1 : List ℚ

/-- One-dimensional linear interpolation, embedding `np.interp(x, xp, fp)`
for increasing `xp`: constant extrapolation with `fp[0]` below `xp[0]`
and with `fp[-1]` above `xp[-1]`, linear in between. -/
def np_interp (x : ℚ) : List ℚ → List ℚ → ℚ
  | [_], f0 :: _ => f0
  | x0 :: x1 :: xps, f0 :: f1 :: fps =>
      if x ≤ x0 then f0
      else if x ≤ x1 then f0 + (f1 - f0) * (x - x0) / (x1 - x0)
      else np_interp x (x1 :: xps) (f1 :: fps)
  | _, _ => 0

/-- The integration horizon `T = 2` of `get_random_trajectory`. -/
def traj_T : ℚ := 2

/-- The resampling step `dt = .1` of `get_random_trajectory`. -/
def traj_dt : ℚ := 1/10

/-- Embedding of `get_random_trajectory`, parametrized by the output of
the `solve_ivp` library call (which depends on the random initial
state): resamples each solver row by `np.interp` onto the uniform grid
`times = np.linspace(0, T, int(T/dt)+1)`, returning the 2-row array
`trajectory` with `trajectory[0,:]` and `trajectory[1,:]` the two
interpolated rows. -/
def get_random_trajectory (sol : OdeSolution) : List (List ℚ) :=
  let times : List ℚ := np_linspace 0 traj_T ((⌊traj_T / traj_dt⌋).toNat + 1)
  [times.map (fun x => np_interp x sol.t sol.y0),
   times.map (fun x => np_interp x sol.t sol.y1)]

/-- The random initial state per component: `x0 = -5 + 10*np.random.rand(2)`,
where each `np.random.rand` draw lies in `[0, 1)`. -/
def random_x0_component (r : ℚ) : ℚ := -5 + 10 * r

/-- The spec's description of `get_random_trajectory`, written from the
spec's words and not from the code: the library solver output for
`van_der_pol_dynamics` over `[0, 2]`, resampled per component by linear
interpolation onto the uniform time grid `np.linspace(0, T, int(T/dt)+1)`
with `T = 2` and `dt = 0.1`. -/
def spec_resampled_solver_output (sol : OdeSolution) : List (List ℚ) :=
  let grid : List ℚ := np_linspace 0 2 ((⌊(2 : ℚ) / (1/10)⌋).toNat + 1)
  [grid.map (fun x => np_interp x sol.t sol.y0),
   grid.map (fun x => np_interp x sol.t sol.y1)]

/-- The sequence length of every resampled trajectory:
`K = len(np.linspace(0, 2, int(2/0.1)+1))`. -/
def traj_K : ℕ := (np_linspace 0 2 ((⌊(2 : ℚ) / (1/10)⌋).toNat + 1)).length

/-- numpy 2-D transpose `.T`, as a model for the rectangular arrays the
notebook builds (every row has the length of the first row): entry
`(j, r)` of the result is entry `(r, j)` of the argument. -/
def np_transpose (m : List (List ℚ)) : List (List ℚ) :=
  (List.range (m.headD []).length).map (fun j => m.map (fun row => row.getD j 0))

/-- numpy `swapaxes(0, 1)` on a 3-D array, as a model for the rectangular
arrays the notebook builds: entry `(j, i, :)` of the result is entry
`(i, j, :)` of the argument. -/
def np_swapaxes01 (a : List (List (List ℚ))) : List (List (List ℚ)) :=
  (List.range (a.headD []).length).map (fun j => a.map (fun row => row.getD j []))

/-- One row of the `input` array of `get_minibatch`:
`input = np.zeros_like(trajectory); input[:,0] = trajectory[:, 0]`
keeps the first entry of the row and zeroes the rest. -/
def make_input_row : List ℚ → List ℚ
  | [] => []
  | v :: rest => v :: rest.map (fun _ => 0)

/-- The `input` array built per example inside `get_minibatch`:
zeros shaped like the trajectory, with the first column set to the
trajectory's initial state `x0 = trajectory[:, 0]`. -/
def make_input (trajectory : List (List ℚ)) : List (List ℚ) :=
  trajectory.map make_input_row

/-- Embedding of `get_minibatch(n)`: draws `n` random trajectories
(the `i`-th `solve_ivp` output is `sols i`), builds the per-example
`input` and `trajectory` arrays, transposes each to `[sequence, elements]`,
stacks them, and swaps the first two axes so that the axis order of both
returned tensors is `[sequence, minibatch, elements]`. -/
def get_minibatch (n : ℕ) (sols : ℕ → OdeSolution) :
    List (List (List ℚ)) × List (List (List ℚ)) :=
  let trajs := (List.range n).map (fun i => get_random_trajectory (sols i))
  let inputs := trajs.map (fun traj => np_transpose (make_input traj))
  let trajectories := trajs.map (fun traj => np_transpose traj)
  (np_swapaxes01 inputs, np_swapaxes01 trajectories)

/-- Shape predicate for our list model of a 3-D array: `hasShape3 a d0 d1 d2`
says `a` is a `d0 × d1 × d2` array. -/
def hasShape3 (a : List (List (List ℚ))) (d0 d1 d2 : ℕ) : Prop :=
  a.length = d0 ∧ ∀ p ∈ a, p.length = d1 ∧ ∀ q ∈ p, q.length = d2

/-- The resampling of one solver row onto the 21-point uniform grid. -/
def resampled (sol : OdeSolution) (y : List ℚ) : List ℚ :=
  (np_linspace 0 traj_T 21).map (fun x => np_interp x sol.t y)

/-- The state threaded through the training loop of the notebook:
the smoothed `running_loss`, the number of `optimizer.step()` calls
made so far, and the sizes of the minibatches drawn so far (in order). -/
structure TrainState where
  runningLoss : ℚ
  optimizerSteps : ℕ
  batchSizes : List ℕ

/-- One iteration of the training loop body: `model.zero_grad()`, draw
one minibatch of 20 examples with `get_minibatch(20)`, compute the loss
(whose numeric value `lossVal` comes from the library model, so it is a
parameter), `loss.backward()`, update
`running_loss = .9*running_loss + .1*loss.item()`, and `optimizer.step()`. -/
def training_iteration (lossVal : ℚ) (s : TrainState) : TrainState :=
  { runningLoss := 9/10 * s.runningLoss + 1/10 * lossVal
    optimizerSteps := s.optimizerSteps + 1
    batchSizes := s.batchSizes ++ [20] }

/-- The training loop of the notebook: `for sample in range(2000)` over
the iteration body, starting from `running_loss = 0` and no optimizer
steps taken.  `lossOf sample` is the loss value the library model
produces on the minibatch of iteration `sample`. -/
def training_loop (lossOf : ℕ → ℚ) : TrainState :=
  (List.range 2000).foldl (fun s i => training_iteration (lossOf i) s) ⟨0, 0, []⟩

/-- Modelled from the spec: the bodies of `LSTMNetwork.__init__` and
`LSTMNetwork.forward` are fill-in exercises (`TODO`) in the notebook,
so the network itself is missing from the source; the notebook's own
prose prescribes "an LSTM network using a torch.nn.LSTM layer for
dynamics and a torch.nn.Linear layer to decode the two-dimensional
state from the network's hidden variables".  The `torch.nn.LSTM` layer
is library code, modelled as an abstract recurrent cell (mapping the
hidden/cell state pair and the current input to the next state pair)
scanned along the sequence from the zero initial state; `torch.nn.Linear`
is the affine map `x ↦ W x + b`. -/
structure LSTMNetwork where
  input_dim : ℕ
  hidden_dim : ℕ
  target_dim : ℕ
  cell : List ℚ × List ℚ → List ℚ → List ℚ × List ℚ
  linear_weight : List (List ℚ)
  linear_bias : List ℚ

/-- Dot product of two coefficient lists. -/
def dotProd (u v : List ℚ) : ℚ := ((u.zip v).map (fun p => p.1 * p.2)).sum

/-- Model of a `torch.nn.Linear` layer: `x ↦ W x + b`, one output
coordinate per row of `W`. -/
def linear_forward (W : List (List ℚ)) (b : List ℚ) (x : List ℚ) : List ℚ :=
  (W.zip b).map (fun wb => dotProd wb.1 x + wb.2)

/-- Model of a `torch.nn.LSTM` layer run over a sequence: the recurrent
cell is scanned along the input sequence, emitting the hidden state at
every time step. -/
def lstm_layer (cell : List ℚ × List ℚ → List ℚ → List ℚ × List ℚ) :
    List ℚ × List ℚ → List (List ℚ) → List (List ℚ)
  | _, [] => []
  | hc, x :: xs =>
      let hc' := cell hc x
      hc'.1 :: lstm_layer cell hc' xs

/-- Modelled from the spec (see `LSTMNetwork`): the forward pass runs
the LSTM layer over the input sequence from the zero initial state and
decodes each hidden state with the linear layer. -/
def LSTMNetwork.forward (net : LSTMNetwork) (input : List (List ℚ)) : List (List ℚ) :=
  (lstm_layer net.cell
      (List.replicate net.hidden_dim 0, List.replicate net.hidden_dim 0) input).map
    (linear_forward net.linear_weight net.linear_bias)

/-- Error-monadic lift of `get_random_trajectory`: the `solve_ivp`
library call may raise; the notebook has no try/except, so the only
available behaviour is to propagate the error unchanged. -/
def get_random_trajectoryE (sol : Except String OdeSolution) :
    Except String (List (List ℚ)) :=
  sol.map get_random_trajectory

/-- Sequencing of fallible library calls, with no handler: the first
error aborts the computation and is returned unchanged. -/
def collectE {α : Type} : List (Except String α) → Except String (List α)
  | [] => .ok []
  | x :: xs => x.bind (fun v => (collectE xs).map (fun vs => v :: vs))

/-- Error-monadic lift of `get_minibatch`: each of the `n` solver calls
may raise, and the notebook has no handler, so the first error is
propagated unchanged. -/
def get_minibatchE (n : ℕ) (sols : ℕ → Except String OdeSolution) :
    Except String (List (List (List ℚ)) × List (List (List ℚ))) :=
  (collectE ((List.range n).map sols)).map
    (fun vs => get_minibatch n (fun i => vs.getD i ⟨[], [], []⟩))

/-- Error-monadic lift of the training loop: the loss computation of
each iteration may raise a library error, and the loop body has no
handler, so the error is propagated unchanged. -/
def training_loopE (lossOf : ℕ → Except String ℚ) : Except String TrainState :=
  (List.range 2000).foldl
    (fun s i => s.bind (fun st => (lossOf i).map (fun q => training_iteration q st)))
    (.ok ⟨0, 0, []⟩)

lemma traj_K_eq : traj_K = 21 := by
  have h : ⌊(2 : ℚ) / (1/10)⌋ = 20 := by norm_num
  unfold traj_K np_linspace
  rw [List.length_map, List.length_range, h]
  rfl

lemma getD_map_range {α : Type*} (f : ℕ → α) (L t : ℕ) (d : α) :
    ((List.range L).map f).getD t d = if t < L then f t else d := by
  by_cases h : t < L
  · rw [if_pos h, List.getD_eq_getElem _ _ (by simpa using h)]
    simp
  · rw [if_neg h, List.getD_eq_default]
    simpa using Nat.le_of_not_lt h

lemma headD_map_range {α : Type*} (F : ℕ → α) (n : ℕ) (hn : 0 < n) (d : α) :
    ((List.range n).map F).headD d = F 0 := by
  obtain ⟨m, rfl⟩ := Nat.exists_eq_succ_of_ne_zero (Nat.pos_iff_ne_zero.mp hn)
  rw [List.range_succ_eq_map]
  rfl

lemma getD_map_const_zero (l : List ℚ) (s : ℕ) :
    (l.map (fun _ => (0 : ℚ))).getD s 0 = 0 := by
  by_cases h : s < l.length
  · rw [List.getD_eq_getElem _ _ (by simpa using h)]
    simp
  · rw [List.getD_eq_default]
    simpa using Nat.le_of_not_lt h

lemma make_input_row_length (r : List ℚ) : (make_input_row r).length = r.length := by
  cases r <;> simp [make_input_row]

lemma make_input_row_getD_zero (r : List ℚ) :
    (make_input_row r).getD 0 0 = r.getD 0 0 := by
  cases r <;> rfl

lemma make_input_row_getD_succ (r : List ℚ) (s : ℕ) :
    (make_input_row r).getD (s + 1) 0 = 0 := by
  cases r with
  | nil => rfl
  | cons v rest =>
      rw [make_input_row, List.getD_cons_succ]
      exact getD_map_const_zero rest s

lemma floor_T_dt : (⌊traj_T / traj_dt⌋).toNat + 1 = 21 := by
  have h : ⌊traj_T / traj_dt⌋ = 20 := by norm_num [traj_T, traj_dt]
  rw [h]
  rfl

lemma get_random_trajectory_eq (sol : OdeSolution) :
    get_random_trajectory sol = [resampled sol sol.y0, resampled sol sol.y1] := by
  rw [get_random_trajectory, floor_T_dt]
  rfl

lemma resampled_length (sol : OdeSolution) (y : List ℚ) :
    (resampled sol y).length = 21 := by
  simp [resampled, np_linspace]

lemma np_transpose_pair (r0 r1 : List ℚ) :
    np_transpose [r0, r1] =
      (List.range r0.length).map (fun j => [r0.getD j 0, r1.getD j 0]) := rfl

lemma np_swapaxes01_elem (F : ℕ → List (List ℚ)) (n : ℕ) (hn : 0 < n)
    (t i : ℕ) (ht : t < (F 0).length) (hi : i < n) :
    ((np_swapaxes01 ((List.range n).map F)).getD t []).getD i [] =
      (F i).getD t [] := by
  unfold np_swapaxes01
  rw [headD_map_range F n hn, getD_map_range, if_pos ht, List.map_map,
    getD_map_range, if_pos hi]
  rfl

lemma np_swapaxes01_shape (F : ℕ → List (List ℚ)) (n L : ℕ) (hn : 0 < n)
    (hF : ∀ i, (F i).length = L)
    (hE : ∀ i j, j < L → ((F i).getD j []).length = 2) :
    hasShape3 (np_swapaxes01 ((List.range n).map F)) L n 2 := by
  unfold np_swapaxes01 hasShape3
  rw [headD_map_range F n hn, hF 0]
  refine ⟨by simp, ?_⟩
  intro p hp
  simp only [List.mem_map, List.mem_range] at hp
  obtain ⟨j, hj, rfl⟩ := hp
  refine ⟨by simp, ?_⟩
  intro q hq
  rw [List.map_map] at hq
  simp only [List.mem_map, List.mem_range, Function.comp] at hq
  obtain ⟨i, _, rfl⟩ := hq
  exact hE i j hj

lemma get_minibatch_fst (n : ℕ) (sols : ℕ → OdeSolution) :
    (get_minibatch n sols).1 =
      np_swapaxes01 ((List.range n).map
        (fun i => np_transpose (make_input (get_random_trajectory (sols i))))) := by
  simp only [get_minibatch, List.map_map]
  rfl

lemma get_minibatch_snd (n : ℕ) (sols : ℕ → OdeSolution) :
    (get_minibatch n sols).2 =
      np_swapaxes01 ((List.range n).map
        (fun i => np_transpose (get_random_trajectory (sols i)))) := by
  simp only [get_minibatch, List.map_map]
  rfl

lemma transpose_make_input_traj (sol : OdeSolution) :
    np_transpose (make_input (get_random_trajectory sol)) =
      (List.range 21).map (fun j =>
        [(make_input_row (resampled sol sol.y0)).getD j 0,
         (make_input_row (resampled sol sol.y1)).getD j 0]) := by
  rw [get_random_trajectory_eq]
  have h : make_input [resampled sol sol.y0, resampled sol sol.y1] =
      [make_input_row (resampled sol sol.y0), make_input_row (resampled sol sol.y1)] := rfl
  rw [h, np_transpose_pair, make_input_row_length, resampled_length]

lemma transpose_traj (sol : OdeSolution) :
    np_transpose (get_random_trajectory sol) =
      (List.range 21).map (fun j =>
        [(resampled sol sol.y0).getD j 0, (resampled sol sol.y1).getD j 0]) := by
  rw [get_random_trajectory_eq, np_transpose_pair, resampled_length]

lemma transpose_make_input_traj_length (sol : OdeSolution) :
    (np_transpose (make_input (get_random_trajectory sol))).length = 21 := by
  rw [transpose_make_input_traj]
  simp

lemma transpose_traj_length (sol : OdeSolution) :
    (np_transpose (get_random_trajectory sol)).length = 21 := by
  rw [transpose_traj]
  simp

lemma transpose_make_input_traj_getD (sol : OdeSolution) (j : ℕ) (hj : j < 21) :
    (np_transpose (make_input (get_random_trajectory sol))).getD j [] =
      [(make_input_row (resampled sol sol.y0)).getD j 0,
       (make_input_row (resampled sol sol.y1)).getD j 0] := by
  rw [transpose_make_input_traj, getD_map_range, if_pos hj]

lemma transpose_traj_getD (sol : OdeSolution) (j : ℕ) (hj : j < 21) :
    (np_transpose (get_random_trajectory sol)).getD j [] =
      [(resampled sol sol.y0).getD j 0, (resampled sol sol.y1).getD j 0] := by
  rw [transpose_traj, getD_map_range, if_pos hj]

lemma training_foldl_steps (lossOf : ℕ → ℚ) (l : List ℕ) (s : TrainState) :
    ((l.foldl (fun s i => training_iteration (lossOf i) s) s).optimizerSteps
        = s.optimizerSteps + l.length) ∧
    ((l.foldl (fun s i => training_iteration (lossOf i) s) s).batchSizes
        = s.batchSizes ++ List.replicate l.length 20) := by
  induction l generalizing s with
  | nil => simp
  | cons a l ih =>
      simp only [List.foldl_cons, List.length_cons]
      refine ⟨?_, ?_⟩
      · rw [(ih _).1]
        simp only [training_iteration]
        omega
      · rw [(ih _).2]
        simp [training_iteration, List.replicate_succ, List.append_assoc]

lemma lstm_layer_length (cell : List ℚ × List ℚ → List ℚ → List ℚ × List ℚ)
    (hc : List ℚ × List ℚ) (xs : List (List ℚ)) :
    (lstm_layer cell hc xs).length = xs.length := by
  induction xs generalizing hc with
  | nil => rfl
  | cons x xs ih => simp [lstm_layer, ih]

lemma collectE_map_ok {α : Type} (l : List α) :
    collectE (l.map Except.ok) = .ok l := by
  induction l with
  | nil => rfl
  | cons a l ih => simp [collectE, ih, Except.bind, Except.map]

lemma get_minibatch_congr (n : ℕ) (s1 s2 : ℕ → OdeSolution)
    (h : ∀ i < n, s1 i = s2 i) :
    get_minibatch n s1 = get_minibatch n s2 := by
  unfold get_minibatch
  have hmap : (List.range n).map (fun i => get_random_trajectory (s1 i)) =
      (List.range n).map (fun i => get_random_trajectory (s2 i)) := by
    apply List.map_congr_left
    intro i hi
    rw [h i (List.mem_range.mp hi)]
  simp only [hmap]

lemma training_foldlE_ok (g : ℕ → ℚ) (l : List ℕ) (s : TrainState) :
    l.foldl
        (fun (s : Except String TrainState) (i : ℕ) => s.bind (fun st =>
          (Except.ok (g i) : Except String ℚ).map (fun q => training_iteration q st)))
        (.ok s)
      = .ok (l.foldl (fun s i => training_iteration (g i) s) s) := by
  induction l generalizing s with
  | nil => rfl
  | cons a l ih =>
      simp only [List.foldl_cons]
      rw [← ih]
      rfl

lemma training_foldlE_error (lossOf : ℕ → Except String ℚ) (l : List ℕ) (e : String) :
    l.foldl
        (fun (s : Except String TrainState) (i : ℕ) =>
          s.bind (fun st => (lossOf i).map (fun q => training_iteration q st)))
        (.error e)
      = .error e := by
  induction l with
  | nil => rfl
  | cons a l ih => simpa using ih

/-- C1: `van_der_pol_dynamics(t, x)` returns `[x2, mu*(1 - x1^2)*x2 - x1]`
with the fixed parameter `mu = 0.1 > 0`, for every time `t` and state
`(x1, x2)`: exactly the right-hand side of the van der Pol system. -/
theorem van_der_pol_dynamics_correct (t x1 x2 : ℚ) :
    van_der_pol_dynamics t (x1, x2) = (x2, (1/10) * (1 - x1 ^ 2) * x2 - x1)
      ∧ (0 : ℚ) < 1/10 := by
  refine ⟨rfl, by norm_num⟩

/-- C9: `van_der_pol_dynamics` is time-invariant: the returned derivative
depends only on the state argument, not on the time argument. -/
theorem van_der_pol_dynamics_time_invariant (t1 t2 : ℚ) (x : ℚ × ℚ) :
    van_der_pol_dynamics t1 x = van_der_pol_dynamics t2 x := rfl

/-- C10: at every grid point `(x1, x2)`, the vectorized derivatives of
`plot_flow_field` equal `van_der_pol_dynamics t (x1, x2)` for any `t`;
both use the same parameter `mu = 0.1`. -/
theorem plot_flow_field_matches_dynamics (t x1 x2 : ℚ) :
    plot_flow_field_derivs x1 x2 = van_der_pol_dynamics t (x1, x2) := rfl

/-- C5: `get_random_trajectory` is exactly the library solver output
resampled per component by `np.interp` onto `np.linspace(0, T, int(T/dt)+1)`
with `T = 2`, `dt = 0.1` (no integrator of its own), and the random
initial state `-5 + 10*rand` lies in `[-5, 5)` per component whenever
the library draw `rand` lies in `[0, 1)`. -/
theorem get_random_trajectory_is_resampled_solver_output
    (sol : OdeSolution) (r : ℚ) (h0 : 0 ≤ r) (h1 : r < 1) :
    get_random_trajectory sol = spec_resampled_solver_output sol
      ∧ -5 ≤ random_x0_component r ∧ random_x0_component r < 5 := by
  refine ⟨rfl, ?_, ?_⟩ <;> simp only [random_x0_component] <;> linarith

/-- Witness for C5 at the concrete solver output `⟨[0], [0], [0]⟩` and
random draw `r = 1/2`. -/
theorem get_random_trajectory_is_resampled_solver_output_witness :
    get_random_trajectory ⟨[0], [0], [0]⟩ = spec_resampled_solver_output ⟨[0], [0], [0]⟩
      ∧ -5 ≤ random_x0_component (1/2) ∧ random_x0_component (1/2) < 5 :=
  get_random_trajectory_is_resampled_solver_output ⟨[0], [0], [0]⟩ (1/2)
    (by norm_num) (by norm_num)

/-- C8: every call of `get_random_trajectory` returns an array of shape
`(2, K)` with `K = len(np.linspace(0, 2, int(2/0.1)+1)) = 21`, whatever
time points the solver internally produced. -/
theorem get_random_trajectory_shape (sol : OdeSolution) :
    (get_random_trajectory sol).length = 2
      ∧ (∀ row ∈ get_random_trajectory sol, row.length = traj_K)
      ∧ traj_K = 21 := by
  refine ⟨rfl, ?_, traj_K_eq⟩
  intro row hrow
  simp only [get_random_trajectory, List.mem_cons, List.not_mem_nil, or_false] at hrow
  rcases hrow with h | h <;> subst h <;>
    simp [traj_K, np_linspace, traj_T, traj_dt]

/-- Witness for C8 at the concrete solver output `⟨[0], [0], [0]⟩`. -/
theorem get_random_trajectory_shape_witness :
    (get_random_trajectory ⟨[0], [0], [0]⟩).length = 2
      ∧ (∀ row ∈ get_random_trajectory ⟨[0], [0], [0]⟩, row.length = traj_K)
      ∧ traj_K = 21 :=
  get_random_trajectory_shape ⟨[0], [0], [0]⟩

/-- C3: for every `n ≥ 1` (and every sequence of solver outputs),
`get_minibatch n` returns a pair `(inputs, trajectories)` of identical
shape `[K, n, 2]` (axis order sequence, minibatch, elements), such that
for every example `i`, `inputs[0, i, :]` equals `trajectories[0, i, :]`
(which is the trajectory's initial state), and `inputs[t, i, :]` is the
zero vector for every time step `t ≥ 1`. -/
theorem get_minibatch_spec (n : ℕ) (sols : ℕ → OdeSolution) (hn : 1 ≤ n) :
    hasShape3 (get_minibatch n sols).1 traj_K n 2 ∧
    hasShape3 (get_minibatch n sols).2 traj_K n 2 ∧
    (∀ i, i < n →
      ((get_minibatch n sols).1.getD 0 []).getD i [] =
        ((get_minibatch n sols).2.getD 0 []).getD i [] ∧
      ((get_minibatch n sols).2.getD 0 []).getD i [] =
        [((get_random_trajectory (sols i)).getD 0 []).getD 0 0,
         ((get_random_trajectory (sols i)).getD 1 []).getD 0 0]) ∧
    (∀ t i, 1 ≤ t → t < traj_K → i < n →
      ((get_minibatch n sols).1.getD t []).getD i [] = [0, 0]) := by
  have hn' : 0 < n := hn
  have hK : traj_K = 21 := traj_K_eq
  refine ⟨?_, ?_, ?_, ?_⟩
  · rw [get_minibatch_fst, hK]
    refine np_swapaxes01_shape _ n 21 hn' (fun i => transpose_make_input_traj_length _) ?_
    intro i j hj
    rw [transpose_make_input_traj_getD _ j hj]
    rfl
  · rw [get_minibatch_snd, hK]
    refine np_swapaxes01_shape _ n 21 hn' (fun i => transpose_traj_length _) ?_
    intro i j hj
    rw [transpose_traj_getD _ j hj]
    rfl
  · intro i hi
    rw [get_minibatch_fst, get_minibatch_snd,
      np_swapaxes01_elem _ n hn' 0 i (by rw [transpose_make_input_traj_length]; norm_num) hi,
      np_swapaxes01_elem _ n hn' 0 i (by rw [transpose_traj_length]; norm_num) hi,
      transpose_make_input_traj_getD _ 0 (by norm_num),
      transpose_traj_getD _ 0 (by norm_num),
      make_input_row_getD_zero, make_input_row_getD_zero,
      get_random_trajectory_eq]
    refine ⟨rfl, ?_⟩
    rfl
  · intro t i ht htK hi
    rw [hK] at htK
    obtain ⟨s, rfl⟩ := Nat.exists_eq_add_of_le ht
    rw [get_minibatch_fst,
      np_swapaxes01_elem _ n hn' (1 + s) i
        (by rw [transpose_make_input_traj_length]; omega) hi,
      transpose_make_input_traj_getD _ (1 + s) (by omega)]
    have h1 : 1 + s = s + 1 := Nat.add_comm 1 s
    rw [h1, make_input_row_getD_succ, make_input_row_getD_succ]

/-- Witness for C3 at `n = 1` with the constant solver output `⟨[0], [0], [0]⟩`. -/
theorem get_minibatch_spec_witness :
    (1 : ℕ) ≤ 1 ∧
    (hasShape3 (get_minibatch 1 (fun _ => ⟨[0], [0], [0]⟩)).1 traj_K 1 2 ∧
     hasShape3 (get_minibatch 1 (fun _ => ⟨[0], [0], [0]⟩)).2 traj_K 1 2 ∧
     (∀ i, i < 1 →
       ((get_minibatch 1 (fun _ => ⟨[0], [0], [0]⟩)).1.getD 0 []).getD i [] =
         ((get_minibatch 1 (fun _ => ⟨[0], [0], [0]⟩)).2.getD 0 []).getD i [] ∧
       ((get_minibatch 1 (fun _ => ⟨[0], [0], [0]⟩)).2.getD 0 []).getD i [] =
         [((get_random_trajectory ⟨[0], [0], [0]⟩).getD 0 []).getD 0 0,
          ((get_random_trajectory ⟨[0], [0], [0]⟩).getD 1 []).getD 0 0]) ∧
     (∀ t i, 1 ≤ t → t < traj_K → i < 1 →
       ((get_minibatch 1 (fun _ => ⟨[0], [0], [0]⟩)).1.getD t []).getD i [] = [0, 0])) :=
  ⟨le_refl 1, get_minibatch_spec 1 (fun _ => ⟨[0], [0], [0]⟩) (le_refl 1)⟩

/-- C2: the training loop is fixed-iteration: for every sequence of loss
values (i.e. regardless of the data encountered), it executes exactly
2000 iterations of `for sample in range(2000)`, each drawing one
minibatch of 20 examples and performing one optimizer step, and then
terminates; there is no data-dependent or early exit condition. -/
theorem training_loop_fixed_iteration (lossOf : ℕ → ℚ) :
    (training_loop lossOf).optimizerSteps = 2000 ∧
    (training_loop lossOf).batchSizes = List.replicate 2000 20 := by
  have h := training_foldl_steps lossOf (List.range 2000) ⟨0, 0, []⟩
  unfold training_loop
  refine ⟨?_, ?_⟩
  · rw [h.1]
    rw [List.length_range]
  · rw [h.2]
    rw [List.length_range, List.nil_append]

/-- C4: the network defined by `LSTMNetwork` is two-layer recurrent:
its forward pass is exactly the `torch.nn.LSTM` recurrent layer scanned
over the input, followed by the `torch.nn.Linear` decoding layer applied
to each hidden state, and it maps an input sequence of initial
conditions to a decoded state-trajectory sequence of the same length. -/
theorem lstm_network_two_layer (net : LSTMNetwork) (input : List (List ℚ)) :
    net.forward input =
      (lstm_layer net.cell
          (List.replicate net.hidden_dim 0, List.replicate net.hidden_dim 0) input).map
        (linear_forward net.linear_weight net.linear_bias) ∧
    (net.forward input).length = input.length := by
  refine ⟨rfl, ?_⟩
  rw [LSTMNetwork.forward, List.length_map, lstm_layer_length]

/-- C6: none of the operations consuming fallible library calls catches
the error or recovers: each error-monadic lift either returns the pure
result (all library calls succeed) or propagates the first library error
unchanged; there is no handling branch. -/
theorem no_failure_recovery :
    (∀ e : String, get_random_trajectoryE (.error e) = .error e) ∧
    (∀ sol : OdeSolution,
      get_random_trajectoryE (.ok sol) = .ok (get_random_trajectory sol)) ∧
    (∀ (n : ℕ) (g : ℕ → OdeSolution),
      get_minibatchE n (fun i => .ok (g i)) = .ok (get_minibatch n g)) ∧
    (∀ (n : ℕ) (e : String),
      get_minibatchE (n + 1) (fun _ => .error e) = .error e) ∧
    (∀ g : ℕ → ℚ, training_loopE (fun i => .ok (g i)) = .ok (training_loop g)) ∧
    (∀ e : String, training_loopE (fun _ => .error e) = .error e) := by
  refine ⟨fun e => rfl, fun sol => rfl, ?_, ?_, ?_, ?_⟩
  · intro n g
    unfold get_minibatchE
    have hmap : (List.range n).map (fun i => (Except.ok (g i) : Except String OdeSolution))
        = ((List.range n).map g).map Except.ok := by
      rw [List.map_map]
      rfl
    rw [hmap, collectE_map_ok]
    have hcongr : get_minibatch n (fun i => ((List.range n).map g).getD i ⟨[], [], []⟩)
        = get_minibatch n g := by
      apply get_minibatch_congr
      intro i hi
      rw [getD_map_range, if_pos hi]
    rw [Except.map, hcongr]
  · intro n e
    unfold get_minibatchE
    have h : List.range (n + 1) = 0 :: (List.range n).map Nat.succ :=
      List.range_succ_eq_map n
    rw [h]
    rfl
  · intro g
    unfold training_loopE
    rw [training_foldlE_ok g (List.range 2000) ⟨0, 0, []⟩]
    rfl
  · intro e
    unfold training_loopE
    have h : List.range 2000 = 0 :: (List.range 1999).map Nat.succ :=
      List.range_succ_eq_map 1999
    rw [h, List.foldl_cons]
    have h0 : ((Except.ok (⟨0, 0, []⟩ : TrainState) : Except String TrainState).bind
        (fun st => (Except.error e : Except String ℚ).map
          (fun q => training_iteration q st))) = .error e := rfl
    rw [h0]
    exact training_foldlE_error _ _ e

end Syde552
